import Mathlib

/-!
Verification of konard/Jhon-Crow-real-time-voice-replacement.

A shallow embedding of the decision-relevant parts of the repository:
`src/voice_replacer/gui.py` (presentation selection, GUI handlers, the CLI
run loop), `src/voice_replacer/__main__.py` (the argument-driven entry
point), and, for the pipeline and device registry whose modules are not
among the sources, models built from the specification's words.
-/

namespace VoiceReplacer

/-- A presentation implementation that `run_gui` may hand control to. -/
inductive Presentation where
  | gui
  | cli
deriving DecidableEq, Repr

/-- Embeds the module-load import probe at the top of `gui.py`: `HAS_PYQT`
is `True` exactly when `from PyQt6.QtWidgets import ...` succeeded, and
`False` when it raised `ImportError`.  The probe's input is the outcome of
the import attempt. -/
def moduleLoadProbe (pyqtImport : Except String Unit) : Bool :=
  match pyqtImport with
  | Except.ok _ => true
  | Except.error _ => false

/-- Embeds `gui.py run_gui`'s choice of presentation: `if not HAS_PYQT:
return run_cli(config)`, otherwise it builds the Qt application and shows
`VoiceReplacerGUI`. -/
def runGuiSelects (HAS_PYQT : Bool) : Presentation :=
  if HAS_PYQT then Presentation.gui else Presentation.cli

/-- Embeds the speed slider bounds set in `gui.py _setup_ui`:
`self.speed_slider.setMinimum(50)`. -/
def speedSliderMin : ℤ := 50

/-- Embeds the speed slider bounds set in `gui.py _setup_ui`:
`self.speed_slider.setMaximum(200)`. -/
def speedSliderMax : ℤ := 200

/-- Embeds `gui.py _on_speed_changed`: `speed = value / 100.0`, the value
passed to `self.pipeline.set_speed(speed)`.  The real-valued division is
embedded over ℚ; for slider values the Python float result rounds between
the exactly representable endpoints 0.5 and 2.0, so the rational value
carries the range content of the handler. -/
def onSpeedChanged (value : ℤ) : ℚ := (value : ℚ) / 100

/-- The observable calls `gui.py run_cli` makes on its pipeline. -/
inductive CliAction where
  | constructPipeline
  | initCall
  | setTextCb
  | startCall
  | stopCall
deriving DecidableEq, Repr

/-- Embeds `gui.py run_cli`: construct the pipeline, call `initialize()`
(return exit code 1 on failure), register the text callback, call
`start()` (return exit code 1 on failure), loop until interrupted, then
`stop()` and return 0.  The two boolean parameters are the results the
pipeline returns from `initialize()` and `start()`; the result is the
ordered list of pipeline calls made together with the exit code. -/
def run_cli (initOk startOk : Bool) : List CliAction × Nat :=
  if initOk then
    if startOk then
      ([CliAction.constructPipeline, CliAction.initCall, CliAction.setTextCb,
        CliAction.startCall, CliAction.stopCall], 0)
    else
      ([CliAction.constructPipeline, CliAction.initCall, CliAction.setTextCb,
        CliAction.startCall], 1)
  else
    ([CliAction.constructPipeline, CliAction.initCall], 1)

/-- Embeds `gui.py _on_voice_changed`: `voice = self.voice_combo.itemData(index);
if voice: self.pipeline.set_voice(voice)`.  Python truthiness makes both
`None` and the empty string fail the guard.  The result is the argument
passed to `set_voice`, or `none` when `set_voice` is not called. -/
def onVoiceChanged (itemData : Option String) : Option String :=
  match itemData with
  | none => none
  | some v => if v = "" then none else some v

/-- A device descriptor as enumerated by the audio layer: index, display
name, default flag (`__main__.py` and `gui.py` consume dictionaries of
this shape from `AudioCapture.list_devices` / `AudioOutput.list_devices`). -/
structure Device where
  index : Nat
  name : String
  is_default : Bool
deriving DecidableEq, Repr

/-- One entry of a Qt combo box as `gui.py` populates it: a display label
and the attached item data (a device index, or `none` for "Default"). -/
structure ComboItem where
  label : String
  data : Option Nat
deriving DecidableEq, Repr

/-- The output combo box state: its ordered items and the current
selection index. -/
structure OutputCombo where
  items : List ComboItem
  current : Nat
deriving DecidableEq, Repr

/-- The combo item built for one output device in `gui.py _load_devices`:
`name = f"⭐ \x7bname\x7d (Virtual Cable)"` when the device's index equals
the virtual cable's, plain name otherwise; the item data is the device
index. -/
def outputItem (vcIdx : Option Nat) (d : Device) : ComboItem :=
  { label :=
      if vcIdx == some d.index then "⭐ " ++ d.name ++ " (Virtual Cable)"
      else d.name,
    data := some d.index }

/-- Embeds one iteration of the output-device loop in `gui.py
_load_devices`: the device's item is appended, and when it is the virtual
cable the selection is moved to the just-added entry
(`setCurrentIndex(self.output_combo.count() - 1)`). -/
def addOutputDevice (vcIdx : Option Nat) (c : OutputCombo) (d : Device) :
    OutputCombo :=
  { items := c.items ++ [outputItem vcIdx d],
    current :=
      if vcIdx == some d.index then (c.items ++ [outputItem vcIdx d]).length - 1
      else c.current }

/-- The output combo box right after `self.output_combo.clear()` and
`self.output_combo.addItem("Default", None)` in `gui.py _load_devices`;
a Qt combo box selects index 0 once it has an item. -/
def initialOutputCombo : OutputCombo :=
  { items := [{ label := "Default", data := none }], current := 0 }

/-- Embeds the output-device section of `gui.py _load_devices`: clear,
add the "Default" entry, then fold over `AudioOutput.list_devices()`
comparing each index against `AudioOutput.find_virtual_cable()`. -/
def loadOutputDevices (devices : List Device) (vc : Option Device) :
    OutputCombo :=
  devices.foldl (addOutputDevice (vc.map Device.index)) initialOutputCombo

/-- The item data attached to the combo box's current selection (as an
`Option` around the item's own optional device index). -/
def selectedData (c : OutputCombo) : Option (Option Nat) :=
  (c.items[c.current]?).map ComboItem.data

/-- The parsed command-line arguments of `__main__.py main()`. -/
structure Args where
  cli : Bool
  debug : Bool
  voice : Option String
  list_devices : Bool
  list_voices : Bool
deriving DecidableEq, Repr

/-- The observable effects of `__main__.py main()` that the claims talk
about.  `constructPipeline` stands for `VoiceReplacementPipeline(config)`,
which happens inside `run_gui` / `run_cli` when they are entered. -/
inductive MainEffect where
  | setupLogging
  | printDevices
  | printVoices
  | loadConfig
  | constructPipeline
  | runGuiLoop
  | runCliLoop
deriving DecidableEq, Repr

/-- Embeds `__main__.py main()`: logging is always reconfigured; then
`--list-devices` prints the device tables and returns 0 before any
configuration is loaded; `--list-voices` likewise prints the voice table
and returns 0; otherwise `AppConfig.load()` runs and control enters
`run_cli` or `run_gui` (each of which constructs the pipeline), whose
return value becomes the exit code (`cliRet` / `guiRet`). -/
def main (a : Args) (guiRet cliRet : Nat) : List MainEffect × Nat :=
  if a.list_devices then
    ([MainEffect.setupLogging, MainEffect.printDevices], 0)
  else if a.list_voices then
    ([MainEffect.setupLogging, MainEffect.printVoices], 0)
  else if a.cli then
    ([MainEffect.setupLogging, MainEffect.loadConfig,
      MainEffect.constructPipeline, MainEffect.runCliLoop], cliRet)
  else
    ([MainEffect.setupLogging, MainEffect.loadConfig,
      MainEffect.constructPipeline, MainEffect.runGuiLoop], guiRet)

/-- The pipeline state machine's states, from §3 of the spec (the
`pipeline` module itself is not among the sources). -/
inductive PipelineState where
  | Idle
  | Listening
  | Recognizing
  | Synthesizing
  | Speaking
  | Error
deriving DecidableEq, Repr

/-- Modelled from the spec: the `pipeline` module is not among the
sources.  §4.7: `Idle --start()--> Listening`; "calling `start()` while
already running is a no-op returning false".  Returns the new state and
`start()`'s boolean result. -/
def startPipeline : PipelineState → PipelineState × Bool
  | PipelineState.Idle => (PipelineState.Listening, true)
  | s => (s, false)

/-- Modelled from the spec: the `pipeline` module is not among the
sources.  §4.7: `(any state) --stop()--> Idle`; "`stop()` while idle is a
no-op". -/
def stopPipeline : PipelineState → PipelineState :=
  fun _ => PipelineState.Idle

/-- A lifecycle command issued to the controller by the presentation
layer. -/
inductive PCmd where
  | startCmd
  | stopCmd
  | utterCmd (text : String)
deriving DecidableEq, Repr

/-- A callback event dispatched by the controller to the presentation
layer: a status-callback invocation or a text-callback invocation. -/
inductive PEvent where
  | statusEvt
  | textEvt (text : String)
deriving DecidableEq, Repr

/-- Modelled from the spec: the `pipeline` module is not among the
sources.  §5: workers emit status/text events only while the pipeline is
running, and `stop()` halts the workers before it returns, so a command
processed after a stop emits nothing until a new `start()`.  One step
maps the running flag and a command to the new running flag and the
events fired while handling that command. -/
def ctrlStep (running : Bool) : PCmd → Bool × List PEvent
  | PCmd.startCmd =>
      (true, if running then [] else [PEvent.statusEvt])
  | PCmd.stopCmd => (false, [])
  | PCmd.utterCmd t =>
      (running,
        if running then [PEvent.statusEvt, PEvent.textEvt t, PEvent.statusEvt]
        else [])

/-- Runs the controller over a command sequence, concatenating the events
fired, in order. -/
def ctrlRun (running : Bool) : List PCmd → List PEvent
  | [] => []
  | c :: cs =>
      ((ctrlStep running c).2) ++ ctrlRun (ctrlStep running c).1 cs

/-- Modelled from the spec: the device registry module is not among the
sources.  §4.1: enumeration "never fails — enumeration errors yield an
empty list, logged at the boundary".  The underlying backend enumeration
is the parameter: it either produces the ordered device list or an
error. -/
def list_input_devices (backend : Except String (List Device)) :
    List Device :=
  match backend with
  | Except.ok ds => ds
  | Except.error _ => []

/-- Modelled from the spec: the device registry module is not among the
sources.  Same contract as `list_input_devices`, for output devices. -/
def list_output_devices (backend : Except String (List Device)) :
    List Device :=
  match backend with
  | Except.ok ds => ds
  | Except.error _ => []

/-- A pipeline state paired with the latency bookkeeping behind the
`PipelineStatus.latency_ms` field. -/
structure PipeState where
  state : PipelineState
  latency_ms : ℚ
deriving DecidableEq, Repr

/-- The read-only status snapshot of §3: `is_speaking`, `is_processing`,
`latency_ms`. -/
structure PipelineStatus where
  is_speaking : Bool
  is_processing : Bool
  latency_ms : ℚ
deriving DecidableEq, Repr

/-- The status snapshot derived from a pipeline state. -/
def statusOf (s : PipeState) : PipelineStatus :=
  { is_speaking := s.state == PipelineState.Speaking,
    is_processing :=
      s.state == PipelineState.Recognizing ||
        s.state == PipelineState.Synthesizing,
    latency_ms := s.latency_ms }

/-- A freshly constructed pipeline: `Idle`, latency 0 (spec §3:
`latency_ms` is "0 when not applicable"). -/
def initialPipe : PipeState := { state := PipelineState.Idle, latency_ms := 0 }

/-- Modelled from the spec: the `pipeline` module is not among the
sources.  `start()` on the latency-carrying state: from `Idle` it moves to
`Listening` with `latency_ms = 0` (§8: latency "is 0 immediately after
`start()` before any utterance completes"); otherwise a no-op returning
false. -/
def startP (s : PipeState) : PipeState × Bool :=
  if s.state = PipelineState.Idle then
    ({ state := PipelineState.Listening, latency_ms := 0 }, true)
  else (s, false)

/-- Modelled from the spec: `stop()` returns the pipeline to `Idle`;
the last measured latency is a retained snapshot value. -/
def stopP (s : PipeState) : PipeState :=
  { state := PipelineState.Idle, latency_ms := s.latency_ms }

/-- Modelled from the spec: completing an utterance returns the machine
to `Listening` and records `latency_ms` as the time from utterance end
(`te`) to the first playback sample of its response (`tp`), both read
from one monotonic clock. -/
def completeUtterance (_s : PipeState) (te tp : ℚ) : PipeState :=
  { state := PipelineState.Listening, latency_ms := tp - te }

/-- The reachable pipeline states: from a freshly constructed pipeline,
via `start()`, `stop()`, and utterance completions whose monotonic
timestamps satisfy `te ≤ tp` and which occur while listening. -/
inductive Reachable : PipeState → Prop where
  | init : Reachable initialPipe
  | startR (s : PipeState) : Reachable s → Reachable (startP s).1
  | stopR (s : PipeState) : Reachable s → Reachable (stopP s)
  | utterR (s : PipeState) (te tp : ℚ) (hord : te ≤ tp)
      (hrun : s.state = PipelineState.Listening) :
      Reachable s → Reachable (completeUtterance s te tp)

/-- Claim C1: the spec says the presentation choice is a build-time or
start-time choice, not a runtime import probe — formally, the presentation
`run_gui` selects would be the same whatever the module-load probe
produced.  In the code the selection is exactly the probe's result, so the
universally quantified independence statement is false. -/
theorem C1_counterexample :
    ¬ (∀ a b : Bool, runGuiSelects a = runGuiSelects b) := by
  intro h
  exact absurd (h true false) (by decide)

/-- Claim C1 (amended): `run_gui`'s selection is determined by the runtime
probe at module load: when the PyQt6 import failed, `run_gui`
selects the text-console presentation (`run_cli`); when it succeeded,
`run_gui` selects the GUI presentation. -/
theorem C1_probe_determines_selection :
    (∀ e : String,
        runGuiSelects (moduleLoadProbe (Except.error e)) = Presentation.cli) ∧
    runGuiSelects (moduleLoadProbe (Except.ok ())) = Presentation.gui := by
  exact ⟨fun _ => rfl, rfl⟩

/-- Claim C2: for every slider position `v` in the configured range
`[speedSliderMin, speedSliderMax] = [50, 200]`, the multiplier the handler
passes to `set_speed` equals `v / 100` and lies in the valid range
`[0.5, 2.0]`. -/
theorem C2_speed_in_range (v : ℤ)
    (h1 : speedSliderMin ≤ v) (h2 : v ≤ speedSliderMax) :
    onSpeedChanged v = (v : ℚ) / 100 ∧
    (1 : ℚ) / 2 ≤ onSpeedChanged v ∧ onSpeedChanged v ≤ 2 := by
  have h1' : (50 : ℚ) ≤ (v : ℚ) := by exact_mod_cast h1
  have h2' : (v : ℚ) ≤ 200 := by exact_mod_cast h2
  refine ⟨rfl, ?_, ?_⟩
  · unfold onSpeedChanged
    linarith
  · unfold onSpeedChanged
    linarith

/-- Witness for C2 at the slider's default position 100. -/
theorem C2_witness :
    speedSliderMin ≤ (100 : ℤ) ∧ (100 : ℤ) ≤ speedSliderMax ∧
    (onSpeedChanged 100 = (100 : ℚ) / 100 ∧
      (1 : ℚ) / 2 ≤ onSpeedChanged 100 ∧ onSpeedChanged 100 ≤ 2) :=
  ⟨by decide, by decide, C2_speed_in_range 100 (by decide) (by decide)⟩

/-- Claim C3: whenever `initialize()` reports failure, `run_cli` returns
the failure exit code 1, and `start()` is never invoked. -/
theorem C3_init_failure_is_fatal :
    ∀ startOk : Bool,
      (run_cli false startOk).2 = 1 ∧
      CliAction.startCall ∉ (run_cli false startOk).1 := by
  decide

/-- Claim C10: the voice-change handler forwards only non-empty voice
identifiers: whenever `set_voice` is called with some identifier, that
identifier is non-empty (and is exactly the combo item's data). -/
theorem C10_voice_never_empty (d : Option String) (v : String)
    (h : onVoiceChanged d = some v) : v ≠ "" ∧ d = some v := by
  cases d with
  | none => exact absurd h (by simp [onVoiceChanged])
  | some w =>
    by_cases hw : w = ""
    · subst hw
      exact absurd h (by simp [onVoiceChanged])
    · simp only [onVoiceChanged, if_neg hw, Option.some.injEq] at h
      subst h
      exact ⟨hw, rfl⟩

/-- Witness for C10 on a concrete voice identifier. -/
theorem C10_witness :
    onVoiceChanged (some "en_US-amy-medium") = some "en_US-amy-medium" ∧
    ("en_US-amy-medium" ≠ "" ∧
      (some "en_US-amy-medium" : Option String) = some "en_US-amy-medium") :=
  ⟨rfl, C10_voice_never_empty (some "en_US-amy-medium") "en_US-amy-medium" rfl⟩

/-- Helper for C4: adding the virtual-cable device itself moves the
selection onto an item whose data is the virtual cable's index. -/
theorem selectedData_add_hit (i : Nat) (c : OutputCombo) (d : Device)
    (hd : d.index = i) :
    selectedData (addOutputDevice (some i) c d) = some (some i) := by
  subst hd
  unfold selectedData addOutputDevice
  simp [List.getElem?_concat_length, outputItem]

/-- Helper for C4: adding a non-virtual-cable device leaves a selection
that already points at virtual-cable data pointing there. -/
theorem selectedData_add_miss (i : Nat) (c : OutputCombo) (d : Device)
    (hd : ¬ d.index = i) (h : selectedData c = some (some i)) :
    selectedData (addOutputDevice (some i) c d) = some (some i) := by
  unfold selectedData at h
  cases hit : c.items[c.current]? with
  | none => rw [hit] at h; simp at h
  | some it =>
    rw [hit] at h
    have hlt : c.current < c.items.length := (List.getElem?_eq_some.mp hit).1
    have hbeq : ((some i : Option Nat) == some d.index) = false := by
      apply beq_eq_false_iff_ne.mpr
      intro h'
      exact hd (Option.some.inj h').symm
    unfold selectedData addOutputDevice
    rw [hbeq]
    simp only [Bool.false_eq_true, if_false]
    rw [List.getElem?_append_left hlt, hit]
    exact h

/-- Helper for C4: processing further devices preserves a selection
pointing at virtual-cable data. -/
theorem selectedData_fold_preserved (i : Nat) (ds : List Device)
    (c : OutputCombo) (h : selectedData c = some (some i)) :
    selectedData (ds.foldl (addOutputDevice (some i)) c) = some (some i) := by
  induction ds generalizing c with
  | nil => exact h
  | cons d ds ih =>
    apply ih
    by_cases hd : d.index = i
    · exact selectedData_add_hit i c d hd
    · exact selectedData_add_miss i c d hd h

/-- Helper for C4: if the virtual cable's index occurs among the devices
processed, the final selection points at virtual-cable data. -/
theorem selectedData_fold_hit (i : Nat) (ds : List Device) (c : OutputCombo)
    (h : i ∈ ds.map Device.index) :
    selectedData (ds.foldl (addOutputDevice (some i)) c) = some (some i) := by
  induction ds generalizing c with
  | nil => simp at h
  | cons d ds ih =>
    by_cases hd : d.index = i
    · exact selectedData_fold_preserved i ds _ (selectedData_add_hit i c d hd)
    · apply ih
      rw [List.map_cons] at h
      rcases List.mem_cons.mp h with h1 | h1
      · exact absurd h1.symm hd
      · exact h1

/-- Claim C4: when `find_virtual_cable` returns a descriptor whose index
appears among the enumerated output devices, `_load_devices` leaves the
output combo box's current selection on an entry whose item data is that
virtual-cable device's index. -/
theorem C4_virtual_cable_autoselected (devices : List Device) (v : Device)
    (h : v.index ∈ devices.map Device.index) :
    selectedData (loadOutputDevices devices (some v)) = some (some v.index) := by
  unfold loadOutputDevices
  exact selectedData_fold_hit v.index devices initialOutputCombo h

/-- Witness for C4: a speaker plus a VB-Audio cable at index 3; the
selection lands on the cable's entry. -/
theorem C4_witness :
    ((3 : Nat) ∈
      ([⟨0, "Speakers", true⟩,
        ⟨3, "CABLE Input (VB-Audio Virtual Cable)", false⟩] :
          List Device).map Device.index) ∧
    selectedData
      (loadOutputDevices
        [⟨0, "Speakers", true⟩,
          ⟨3, "CABLE Input (VB-Audio Virtual Cable)", false⟩]
        (some ⟨3, "CABLE Input (VB-Audio Virtual Cable)", false⟩)) =
      some (some 3) :=
  ⟨by decide, C4_virtual_cable_autoselected _ _ (by decide)⟩

/-- Claim C5: as stated, the claim quantifies over every pipeline state:
"calling start() twice in a row performs exactly one state transition
Idle -> Listening" — formalised as: the starting state is `Idle`, the
first call moves it to `Listening` (the one transition) and the second
call changes nothing and returns false.  From the state `Listening` the
first call already performs no transition at all, so the universally
quantified statement is false. -/
theorem C5_counterexample :
    ¬ (∀ s : PipelineState,
        (s = PipelineState.Idle ∧
          (startPipeline s).1 = PipelineState.Listening ∧
          (startPipeline s).1 ≠ s) ∧
        (startPipeline (startPipeline s).1).1 = (startPipeline s).1 ∧
        (startPipeline (startPipeline s).1).2 = false ∧
        stopPipeline PipelineState.Idle = PipelineState.Idle) := by
  intro h
  exact absurd (h PipelineState.Listening).1.1 (by decide)

/-- Claim C5 (amended): from `Idle`, calling `start()` twice performs
exactly one state transition `Idle -> Listening`: the first call moves to
`Listening` and returns true, the second changes nothing and returns
false; from any state other than `Idle`, `start()` is a no-op returning
false; and `stop()` while idle is a no-op. -/
theorem C5_start_stop_idempotent :
    ((startPipeline PipelineState.Idle).1 = PipelineState.Listening ∧
      (startPipeline PipelineState.Idle).2 = true) ∧
    ((startPipeline (startPipeline PipelineState.Idle).1).1 =
        (startPipeline PipelineState.Idle).1 ∧
      (startPipeline (startPipeline PipelineState.Idle).1).2 = false) ∧
    stopPipeline PipelineState.Idle = PipelineState.Idle ∧
    (∀ s : PipelineState, s ≠ PipelineState.Idle →
      (startPipeline s).1 = s ∧ (startPipeline s).2 = false) := by
  refine ⟨⟨rfl, rfl⟩, ⟨rfl, rfl⟩, rfl, ?_⟩
  intro s hs
  cases s
  · exact absurd rfl hs
  all_goals exact ⟨rfl, rfl⟩

/-- Witness for C5 at the running state `Listening`. -/
theorem C5_witness :
    PipelineState.Listening ≠ PipelineState.Idle ∧
    ((startPipeline PipelineState.Listening).1 = PipelineState.Listening ∧
      (startPipeline PipelineState.Listening).2 = false) :=
  ⟨by decide,
    C5_start_stop_idempotent.2.2.2 PipelineState.Listening (by decide)⟩

/-- Helper for C6: while the pipeline is stopped, commands that do not
include a `start()` fire no events. -/
theorem ctrlRun_stopped_silent (cmds : List PCmd)
    (h : PCmd.startCmd ∉ cmds) : ctrlRun false cmds = [] := by
  induction cmds with
  | nil => rfl
  | cons c cs ih =>
    cases c with
    | startCmd => exact absurd (List.mem_cons_self _ _) h
    | stopCmd =>
      simpa [ctrlRun, ctrlStep] using
        ih (fun hm => h (List.mem_cons_of_mem _ hm))
    | utterCmd t =>
      simpa [ctrlRun, ctrlStep] using
        ih (fun hm => h (List.mem_cons_of_mem _ hm))

/-- Claim C6: as stated, the claim says that after `stop()` returns no
status or text callback is ever invoked again, in every execution —
formalised as: every command sequence processed after a stop fires no
events.  An execution in which the presentation restarts the pipeline and
a new utterance is recognized fires both callbacks again, so the
unrestricted statement is false. -/
theorem C6_counterexample :
    ¬ (∀ (running : Bool) (rest : List PCmd),
        ctrlRun running (PCmd.stopCmd :: rest) = []) := by
  intro h
  exact absurd (h true [PCmd.startCmd, PCmd.utterCmd "hello"]) (by decide)

/-- Claim C6 (amended): after `stop()` returns, neither the status
callback nor the text callback fires again until a subsequent `start()`:
processing any command sequence that contains no `start()` after a stop
fires no events. -/
theorem C6_no_events_after_stop (running : Bool) (rest : List PCmd)
    (h : PCmd.startCmd ∉ rest) :
    ctrlRun running (PCmd.stopCmd :: rest) = [] := by
  simpa [ctrlRun, ctrlStep] using ctrlRun_stopped_silent rest h

/-- Witness for C6: a recognized utterance arriving after the stop fires
nothing. -/
theorem C6_witness :
    PCmd.startCmd ∉ [PCmd.utterCmd "hello"] ∧
    ctrlRun true (PCmd.stopCmd :: [PCmd.utterCmd "hello"]) = [] :=
  ⟨by decide, C6_no_events_after_stop true [PCmd.utterCmd "hello"] (by decide)⟩

/-- Claim C7: device enumeration never fails: whatever the backend
enumeration produced, both listing calls return an ordered (possibly
empty) list — the enumerated devices in order on success, and the empty
list when the underlying enumeration errored. -/
theorem C7_enumeration_never_fails (b : Except String (List Device)) :
    (∀ e, b = Except.error e →
      list_input_devices b = [] ∧ list_output_devices b = []) ∧
    (∀ ds, b = Except.ok ds →
      list_input_devices b = ds ∧ list_output_devices b = ds) := by
  constructor
  · rintro e rfl
    exact ⟨rfl, rfl⟩
  · rintro ds rfl
    exact ⟨rfl, rfl⟩

/-- Witness for C7 on a failing backend. -/
theorem C7_witness :
    (Except.error "enumeration failed" : Except String (List Device)) =
      Except.error "enumeration failed" ∧
    (list_input_devices (Except.error "enumeration failed") = [] ∧
      list_output_devices (Except.error "enumeration failed") = []) :=
  ⟨rfl, (C7_enumeration_never_fails _).1 "enumeration failed" rfl⟩

/-- Claim C8: in every reachable pipeline state the status snapshot's
`latency_ms` is nonnegative, and whenever `start()` succeeds the status
immediately afterwards reports `latency_ms = 0`. -/
theorem C8_latency_nonneg (s : PipeState) (h : Reachable s) :
    0 ≤ (statusOf s).latency_ms ∧
    ((startP s).2 = true → (statusOf (startP s).1).latency_ms = 0) := by
  constructor
  · induction h with
    | init => exact le_refl 0
    | startR s hs ih =>
      unfold startP
      by_cases hi : s.state = PipelineState.Idle
      · simp [hi, statusOf]
      · simpa [hi, statusOf] using ih
    | stopR s hs ih => exact ih
    | utterR s te tp hord hrun hs ih =>
      simpa [completeUtterance, statusOf] using sub_nonneg.mpr hord
  · intro ht
    unfold startP at ht ⊢
    by_cases hi : s.state = PipelineState.Idle
    · simp [hi, statusOf]
    · simp [hi] at ht

/-- Witness for C8: the freshly constructed pipeline, on which `start()`
succeeds and yields latency 0. -/
theorem C8_witness :
    Reachable initialPipe ∧ (startP initialPipe).2 = true ∧
    (statusOf (startP initialPipe).1).latency_ms = 0 :=
  ⟨Reachable.init, rfl, (C8_latency_nonneg initialPipe Reachable.init).2 rfl⟩

/-- Claim C9: with `--list-devices` or `--list-voices`, `main` exits with
code 0 and never loads the configuration, never constructs a pipeline and
never enters the GUI or CLI run loop. -/
theorem C9_list_flags_exit_clean (a : Args) (guiRet cliRet : Nat)
    (h : a.list_devices = true ∨ a.list_voices = true) :
    (main a guiRet cliRet).2 = 0 ∧
    MainEffect.loadConfig ∉ (main a guiRet cliRet).1 ∧
    MainEffect.constructPipeline ∉ (main a guiRet cliRet).1 ∧
    MainEffect.runGuiLoop ∉ (main a guiRet cliRet).1 ∧
    MainEffect.runCliLoop ∉ (main a guiRet cliRet).1 := by
  unfold main
  cases hld : a.list_devices with
  | true => simp
  | false =>
    cases hlv : a.list_voices with
    | true => simp
    | false =>
      rw [hld, hlv] at h
      simp at h

/-- Witness for C9 at a concrete `--list-devices` invocation. -/
theorem C9_witness :
    ((Args.mk false false none true false).list_devices = true ∨
      (Args.mk false false none true false).list_voices = true) ∧
    ((main (Args.mk false false none true false) 7 9).2 = 0 ∧
      MainEffect.loadConfig ∉ (main (Args.mk false false none true false) 7 9).1 ∧
      MainEffect.constructPipeline ∉
        (main (Args.mk false false none true false) 7 9).1 ∧
      MainEffect.runGuiLoop ∉ (main (Args.mk false false none true false) 7 9).1 ∧
      MainEffect.runCliLoop ∉ (main (Args.mk false false none true false) 7 9).1) :=
  ⟨Or.inl rfl, C9_list_flags_exit_clean _ 7 9 (Or.inl rfl)⟩

end VoiceReplacer
